import Mathlib

/-!
Shallow embedding of the wasm-game-of-life core (`src/lib.rs`).

The Rust `Universe` owns `width`, `height` (u32) and a flat row-major
`Vec<Cell>`.  We model u32 values as `Nat` (no operation in the verified
claims reaches the 2^32 wrap for any buffer that can exist), `Vec<Cell>` as
`List Cell`, and every Rust operation that can panic on an out-of-range
index as an `Option`- or `Except`-valued function: `none` / `.error s`
means the call panics, with `s` the state of the struct at the panic point.
-/

namespace WasmGameOfLife

/-- Rust `enum Cell { Dead = 0, Alive = 1 }`. -/
inductive Cell where
  | Dead : Cell
  | Alive : Cell
deriving DecidableEq

/-- Rust `Cell::toggle`: `Dead => Alive, Alive => Dead`. -/
def Cell.toggle : Cell → Cell
  | Cell.Dead => Cell.Alive
  | Cell.Alive => Cell.Dead

/-- The `cell as u8` cast used by `live_neighbor_count` (`Dead = 0`, `Alive = 1`). -/
def cellVal : Cell → Nat
  | Cell.Dead => 0
  | Cell.Alive => 1

/-- Rust `struct Universe { width: u32, height: u32, cells: Vec<Cell> }`. -/
structure Universe where
  width : Nat
  height : Nat
  cells : List Cell
deriving DecidableEq

/-- Rust `Universe::get_index`: `(row * self.width + column) as usize`. -/
def Universe.get_index (u : Universe) (row column : Nat) : Nat :=
  row * u.width + column

/-- Rust `Universe::new(width, height)`: fills the buffer with `width * height`
cells drawn from `thread_rng`; the random source is modelled as an oracle
`rng` giving the cell drawn for each position. -/
def Universe.new (width height : Nat) (rng : Nat → Cell) : Universe :=
  { width := width, height := height,
    cells := (List.range (width * height)).map rng }

/-- Rust `Universe::toggle_cell`: `let idx = self.get_index(row, col); self.cells[idx].toggle()`.
Indexing a `Vec` out of range panics, modelled by `none`. -/
def Universe.toggle_cell (u : Universe) (row col : Nat) : Option Universe :=
  match u.cells.get? (u.get_index row col) with
  | some c => some { u with cells := u.cells.set (u.get_index row col) c.toggle }
  | none => none

/-- The clearing loop `for i in 0..n { self.cells[i] = Cell::Dead; }` shared by
`set_width` and `set_height`, started at index `i` with `n` iterations left.
`.error cells` models the panic on the first out-of-range write, carrying the
buffer contents at that point. -/
def clearFrom (cells : List Cell) (i : Nat) : Nat → Except (List Cell) (List Cell)
  | 0 => Except.ok cells
  | n + 1 =>
    if i < cells.length then clearFrom (cells.set i Cell.Dead) (i + 1) n
    else Except.error cells

/-- Rust `Universe::set_width`: assigns `self.width = width` first, then runs
the clearing loop over `0..(width * self.height)`.  On a panic inside the loop
the struct keeps the already-updated width (`.error` branch). -/
def Universe.set_width (u : Universe) (width : Nat) : Except Universe Universe :=
  match clearFrom u.cells 0 (width * u.height) with
  | Except.ok cs => Except.ok { u with width := width, cells := cs }
  | Except.error cs => Except.error { u with width := width, cells := cs }

/-- Rust `Universe::set_height`: assigns `self.height = height` first, then
runs the clearing loop over `0..(self.width * height)`. -/
def Universe.set_height (u : Universe) (height : Nat) : Except Universe Universe :=
  match clearFrom u.cells 0 (u.width * height) with
  | Except.ok cs => Except.ok { u with height := height, cells := cs }
  | Except.error cs => Except.error { u with height := height, cells := cs }

/-- Rust `Universe::live_neighbor_count`: nested loops over
`delta_row in [self.height - 1, 0, 1]` and `delta_col in [self.width - 1, 0, 1]`,
skipping `delta_row == 0 && delta_col == 0`, wrapping with `%`, and summing
`self.cells[idx] as u8`.  A panicking index lookup is `none`. -/
def Universe.live_neighbor_count (u : Universe) (row column : Nat) : Option Nat :=
  [u.height - 1, 0, 1].foldl (fun acc dr =>
    [u.width - 1, 0, 1].foldl (fun acc2 dc =>
      if dr = 0 ∧ dc = 0 then acc2
      else
        acc2.bind fun c =>
          (u.cells.get? (u.get_index ((row + dr) % u.height) ((column + dc) % u.width))).map
            fun cell => c + cellVal cell) acc) (some 0)

/-- The `match (cell, live_neighbors)` in `Universe::tick`, arm for arm. -/
def nextCell (cell : Cell) (live_neighbors : Nat) : Cell :=
  if cell = Cell.Alive ∧ live_neighbors < 2 then Cell.Dead
  else if cell = Cell.Alive ∧ (live_neighbors = 2 ∨ live_neighbors = 3) then Cell.Alive
  else if cell = Cell.Alive ∧ live_neighbors > 3 then Cell.Dead
  else if cell = Cell.Dead ∧ live_neighbors = 3 then Cell.Alive
  else cell

/-- Rust `Universe::tick(tick_per_frame)`: clones the buffer into `next`, then
for every `(row, col)` reads `cell = self.cells[idx]` once and runs the inner
`for _ in 0..tick_per_frame` loop, which each time recomputes
`live_neighbor_count` from the unchanged `self.cells` and writes
`next[idx] = next_cell`; finally `self.cells = next`.  Reads and writes out of
range panic (`none`). -/
def Universe.tick (u : Universe) (tick_per_frame : Nat) : Option Universe :=
  ((List.range u.height).foldl (fun acc row =>
    (List.range u.width).foldl (fun acc2 col =>
      acc2.bind fun next =>
        (u.cells.get? (u.get_index row col)).bind fun cell =>
          (List.range tick_per_frame).foldl (fun acc3 _ =>
            acc3.bind fun next2 =>
              (u.live_neighbor_count row col).bind fun live_neighbors =>
                if u.get_index row col < next2.length then
                  some (next2.set (u.get_index row col) (nextCell cell live_neighbors))
                else none) (some next)) acc) (some u.cells)).map
    fun next => { u with cells := next }

/-- Rust `Universe::reset`: replaces every cell by a fresh draw from the
random source (modelled as an oracle `rng`). -/
def Universe.reset (u : Universe) (rng : Nat → Cell) : Universe :=
  { u with cells := (List.range (u.width * u.height)).map rng }

/-- Rust `Universe::die`: replaces the buffer by `width * height` Dead cells. -/
def Universe.die (u : Universe) : Universe :=
  { u with cells := (List.range (u.width * u.height)).map fun _ => Cell.Dead }

/-- Rust `Universe::set_cells`: walks the coordinate list in order, setting
each named cell to `Cell::Alive`; an out-of-range index panics (`none`). -/
def Universe.set_cells (u : Universe) : List (Nat × Nat) → Option Universe
  | [] => some u
  | (row, col) :: rest =>
    if u.get_index row col < u.cells.length then
      Universe.set_cells { u with cells := u.cells.set (u.get_index row col) Cell.Alive } rest
    else none

/-- Row-major list of the coordinates whose cell is Alive (used to state
"the Alive cells are exactly ..." claims). -/
def Universe.aliveCoords (u : Universe) : List (Nat × Nat) :=
  (List.range u.height).foldl (fun acc r =>
    acc ++ ((List.range u.width).filterMap fun c =>
      if u.cells.get? (u.get_index r c) = some Cell.Alive then some (r, c) else none)) []

/-- The 6x6 universe of the golden scenario: Alive exactly at
(1,2), (2,3), (3,1), (3,2), (3,3) (flat indices 8, 15, 19, 20, 21). -/
def spaceshipIn : Universe :=
  { width := 6, height := 6,
    cells := (List.range 36).map fun i =>
      if i = 8 ∨ i = 15 ∨ i = 19 ∨ i = 20 ∨ i = 21 then Cell.Alive else Cell.Dead }

/-- The neighbor count exactly as claim C5 words it: offset pairs `(dr, dc)`
drawn from `{-1, 0, +1} x {-1, 0, +1}` excluding `(0, 0)`, neighbor coordinate
`((row + height - 1 + dr) % height, (column + width - 1 + dc) % width)` in
integer arithmetic, counting the Alive cells found there. -/
def claimNeighborCount (u : Universe) (row column : Nat) : Nat :=
  ([-1, 0, 1] : List Int).foldl (fun acc dr =>
    ([-1, 0, 1] : List Int).foldl (fun acc2 dc =>
      if dr = 0 ∧ dc = 0 then acc2
      else
        match u.cells.get? (u.get_index
            (((row : Int) + (u.height : Int) - 1 + dr) % (u.height : Int)).toNat
            (((column : Int) + (u.width : Int) - 1 + dc) % (u.width : Int)).toNat) with
        | some Cell.Alive => acc2 + 1
        | _ => acc2) acc) 0

/-- The count of the amended claim C5: the same wrapped-coordinate formula
`((row + height - 1 + dr) % height, (column + width - 1 + dc) % width)`, with
the offset pairs shifted to `{0, 1, 2} x {0, 1, 2}` excluding the centre
`(1, 1)`, so that the formula lands on the Moore neighborhood. -/
def specNeighborCount (u : Universe) (row column : Nat) : Nat :=
  ([0, 1, 2] : List Nat).foldl (fun acc dr =>
    ([0, 1, 2] : List Nat).foldl (fun acc2 dc =>
      if dr = 1 ∧ dc = 1 then acc2
      else
        match u.cells.get? (u.get_index
            ((row + u.height - 1 + dr) % u.height)
            ((column + u.width - 1 + dc) % u.width)) with
        | some Cell.Alive => acc2 + 1
        | _ => acc2) acc) 0

/-! ## Helper lemmas -/

/-- A row-major index built from in-range coordinates lies inside a
`width * height` buffer. -/
theorem idx_lt_area {row col w h : Nat} (hr : row < h) (hc : col < w) :
    row * w + col < w * h := by
  have h1 : row * w + col < (row + 1) * w := by
    have : (row + 1) * w = row * w + w := by ring
    omega
  have h2 : (row + 1) * w ≤ h * w := Nat.mul_le_mul_right w hr
  have h3 : h * w = w * h := Nat.mul_comm h w
  omega

/-- An in-range `List.get?` succeeds. -/
theorem get?_some_of_lt (l : List Cell) (i : Nat) (h : i < l.length) :
    ∃ c, l.get? i = some c :=
  ⟨l.get ⟨i, h⟩, List.get?_eq_get h⟩

theorem cellVal_le_one (c : Cell) : cellVal c ≤ 1 := by
  cases c <;> simp [cellVal]

/-- An in-range `getElem?` lookup succeeds. -/
theorem getElem?_some_of_lt (l : List Cell) (i : Nat) (h : i < l.length) :
    ∃ c, l[i]? = some c :=
  ⟨l[i], List.getElem?_eq_getElem h⟩

/-- A fold whose step function fixes `some b` on every list element returns
`some b`. -/
theorem foldl_some_fixed {α β : Type} (f : Option β → α → Option β) (b : β) :
    ∀ (l : List α), (∀ a ∈ l, f (some b) a = some b) → l.foldl f (some b) = some b := by
  intro l
  induction l with
  | nil => intro _; rfl
  | cons x t ih =>
    intro hf
    rw [List.foldl_cons, hf x (List.mem_cons_self x t)]
    exact ih fun a ha => hf a (List.mem_cons_of_mem x ha)

/-- The clearing loop panics (with a buffer of unchanged length) as soon as the
iteration count reaches past the end of the buffer. -/
theorem clearFrom_error :
    ∀ (k : Nat) (l : List Cell) (i : Nat), i ≤ l.length → l.length < i + k →
      ∃ l', clearFrom l i k = Except.error l' ∧ l'.length = l.length := by
  intro k
  induction k with
  | zero => intro l i hi hlt; omega
  | succ n ih =>
    intro l i hi hlt
    by_cases hcase : i < l.length
    · have hset : (l.set i Cell.Dead).length = l.length := List.length_set l i Cell.Dead
      obtain ⟨l', hl', hlen⟩ := ih (l.set i Cell.Dead) (i + 1) (by omega) (by omega)
      exact ⟨l', by rw [clearFrom, if_pos hcase]; exact hl', by omega⟩
    · exact ⟨l, by rw [clearFrom, if_neg hcase], rfl⟩

/-! ## Claim theorems -/

/-- Claim C1 (code bug): the spec mandates that `tick(n)` chain generations
(`tick(2)` equals two successive `tick(1)` calls).  The source's inner
`for _ in 0..tick_per_frame` loop recomputes every cell from the same pre-tick
snapshot, so on the golden 6x6 spaceship `tick 2` equals `tick 1` and differs
from two chained `tick 1` calls. -/
theorem claim_C1_multistep_tick_bug :
    spaceshipIn.tick 2 = spaceshipIn.tick 1 ∧
    (spaceshipIn.tick 1).bind (fun v => v.tick 1) ≠ spaceshipIn.tick 2 :=
  ⟨by decide, by decide⟩

/-- Claim C2 (code bug): the spec mandates that `set_width(new_width)`
reallocate the buffer to `new_width * height` all-Dead cells.  On a 4x4
universe with one Alive cell at flat index 15, `set_width 2` returns with the
old 16-cell buffer: only the first `2 * 4 = 8` cells were overwritten, the
length is still 16 (not `2 * 4`), and the Alive cell at index 15 survives. -/
theorem claim_C2_resize_does_not_reallocate :
    Universe.set_width
        { width := 4, height := 4, cells := List.replicate 15 Cell.Dead ++ [Cell.Alive] } 2 =
      Except.ok { width := 2, height := 4, cells := List.replicate 15 Cell.Dead ++ [Cell.Alive] } ∧
    ({ width := 2, height := 4,
       cells := List.replicate 15 Cell.Dead ++ [Cell.Alive] } : Universe).cells.length ≠ 2 * 4 ∧
    ({ width := 2, height := 4,
       cells := List.replicate 15 Cell.Dead ++ [Cell.Alive] } : Universe).cells.get? 15 =
      some Cell.Alive :=
  ⟨rfl, by decide, by decide⟩

/-- Claim C3 (code bug): the invariant `cells.length = width * height` is
claimed to be preserved by every public operation, but `set_width` and
`set_height` keep the old buffer: on a consistent 4x4 all-Dead universe both
`set_width 2` and `set_height 2` return a universe whose 16-cell buffer no
longer matches `width * height = 8`. -/
theorem claim_C3_invariant_broken_by_resize :
    (∃ u', Universe.set_width
        { width := 4, height := 4, cells := List.replicate 16 Cell.Dead } 2 = Except.ok u' ∧
      u'.cells.length ≠ u'.width * u'.height) ∧
    (∃ u', Universe.set_height
        { width := 4, height := 4, cells := List.replicate 16 Cell.Dead } 2 = Except.ok u' ∧
      u'.cells.length ≠ u'.width * u'.height) :=
  ⟨⟨{ width := 2, height := 4, cells := List.replicate 16 Cell.Dead }, rfl, by decide⟩,
   ⟨{ width := 4, height := 2, cells := List.replicate 16 Cell.Dead }, rfl, by decide⟩⟩

/-- Claim C4 (confirmed): on the 6x6 universe whose Alive cells are exactly
(1,2), (2,3), (3,1), (3,2), (3,3), a single `tick 1` yields the universe whose
Alive cells are exactly (2,1), (2,3), (3,2), (3,3), (4,2). -/
theorem claim_C4_golden_spaceship :
    spaceshipIn.aliveCoords = [(1, 2), (2, 3), (3, 1), (3, 2), (3, 3)] ∧
    (spaceshipIn.tick 1).map Universe.aliveCoords =
      some [(2, 1), (2, 3), (3, 2), (3, 3), (4, 2)] :=
  ⟨by decide, by decide⟩

/-- Counterexample to claim C5: read literally, the claim's neighbor formula
`((row + height - 1 + dr) % height, (column + width - 1 + dc) % width)` with
`(dr, dc)` ranging over `{-1, 0, +1} x {-1, 0, +1}` minus `(0, 0)` does not
select the Moore neighborhood.  On a 3x3 universe whose only Alive cell is
(0, 0), the code counts 1 live neighbor of (1, 1) while the claim's formula
counts 0 (its offset set includes (1, 1) itself and omits (0, 0)). -/
theorem claim_C5_counterexample :
    Universe.live_neighbor_count
        { width := 3, height := 3,
          cells := [Cell.Alive, Cell.Dead, Cell.Dead, Cell.Dead, Cell.Dead, Cell.Dead,
                    Cell.Dead, Cell.Dead, Cell.Dead] } 1 1 ≠
      some (claimNeighborCount
        { width := 3, height := 3,
          cells := [Cell.Alive, Cell.Dead, Cell.Dead, Cell.Dead, Cell.Dead, Cell.Dead,
                    Cell.Dead, Cell.Dead, Cell.Dead] } 1 1) := by
  decide

set_option maxHeartbeats 2000000 in
/-- Claim C5 as amended: on a consistent universe of width and height at least
2 and an in-range coordinate, `live_neighbor_count` succeeds and returns the
number of Alive cells among the 8 wrapped Moore neighbors
`((row + height - 1 + dr) % height, (column + width - 1 + dc) % width)` for
`(dr, dc)` in `{0, 1, 2} x {0, 1, 2}` minus the centre `(1, 1)`, a value that
is at most 8.  (The embedding is pure, so the state is untouched.) -/
theorem claim_C5_neighbor_count (u : Universe) (row col : Nat)
    (hlen : u.cells.length = u.width * u.height)
    (hw : 2 ≤ u.width) (hh : 2 ≤ u.height)
    (hr : row < u.height) (hc : col < u.width) :
    u.live_neighbor_count row col = some (specNeighborCount u row col) ∧
    specNeighborCount u row col ≤ 8 := by
  obtain ⟨w, h, cs⟩ := u
  simp only at hlen hw hh hr hc
  obtain ⟨w', rfl⟩ : ∃ w', w = w' + 2 := ⟨w - 2, by omega⟩
  obtain ⟨h', rfl⟩ : ∃ h', h = h' + 2 := ⟨h - 2, by omega⟩
  simp only [Universe.live_neighbor_count, specNeighborCount, Universe.get_index,
    List.foldl_cons, List.foldl_nil]
  rw [show h' + 2 - 1 = h' + 1 from by omega, show w' + 2 - 1 = w' + 1 from by omega]
  simp only [Nat.add_one_ne_zero, false_and, and_false, and_true, true_and, and_self,
    if_false, if_true, ite_false, ite_true, Nat.add_zero]
  rw [show row + (h' + 2) - 1 = row + (h' + 1) from by omega,
      show col + (w' + 2) - 1 = col + (w' + 1) from by omega]
  rw [show row + (h' + 1) + 1 = row + (h' + 2) from by omega,
      show col + (w' + 1) + 1 = col + (w' + 2) from by omega,
      show row + (h' + 1) + 2 = row + 1 + (h' + 2) from by omega,
      show col + (w' + 1) + 2 = col + 1 + (w' + 2) from by omega]
  simp only [Nat.add_mod_right]
  norm_num
  have hpos_h : 0 < h' + 2 := by omega
  have hpos_w : 0 < w' + 2 := by omega
  have hbound : ∀ R C : Nat, R < h' + 2 → C < w' + 2 → R * (w' + 2) + C < cs.length := by
    intro R C hR hC
    rw [hlen]
    exact idx_lt_area hR hC
  obtain ⟨c1, hg1⟩ := getElem?_some_of_lt cs
    ((row + (h' + 1)) % (h' + 2) * (w' + 2) + (col + (w' + 1)) % (w' + 2))
    (hbound _ _ (Nat.mod_lt _ hpos_h) (Nat.mod_lt _ hpos_w))
  obtain ⟨c2, hg2⟩ := getElem?_some_of_lt cs
    ((row + (h' + 1)) % (h' + 2) * (w' + 2) + col % (w' + 2))
    (hbound _ _ (Nat.mod_lt _ hpos_h) (Nat.mod_lt _ hpos_w))
  obtain ⟨c3, hg3⟩ := getElem?_some_of_lt cs
    ((row + (h' + 1)) % (h' + 2) * (w' + 2) + (col + 1) % (w' + 2))
    (hbound _ _ (Nat.mod_lt _ hpos_h) (Nat.mod_lt _ hpos_w))
  obtain ⟨c4, hg4⟩ := getElem?_some_of_lt cs
    (row % (h' + 2) * (w' + 2) + (col + (w' + 1)) % (w' + 2))
    (hbound _ _ (Nat.mod_lt _ hpos_h) (Nat.mod_lt _ hpos_w))
  obtain ⟨c5, hg5⟩ := getElem?_some_of_lt cs
    (row % (h' + 2) * (w' + 2) + (col + 1) % (w' + 2))
    (hbound _ _ (Nat.mod_lt _ hpos_h) (Nat.mod_lt _ hpos_w))
  obtain ⟨c6, hg6⟩ := getElem?_some_of_lt cs
    ((row + 1) % (h' + 2) * (w' + 2) + (col + (w' + 1)) % (w' + 2))
    (hbound _ _ (Nat.mod_lt _ hpos_h) (Nat.mod_lt _ hpos_w))
  obtain ⟨c7, hg7⟩ := getElem?_some_of_lt cs
    ((row + 1) % (h' + 2) * (w' + 2) + col % (w' + 2))
    (hbound _ _ (Nat.mod_lt _ hpos_h) (Nat.mod_lt _ hpos_w))
  obtain ⟨c8, hg8⟩ := getElem?_some_of_lt cs
    ((row + 1) % (h' + 2) * (w' + 2) + (col + 1) % (w' + 2))
    (hbound _ _ (Nat.mod_lt _ hpos_h) (Nat.mod_lt _ hpos_w))
  rw [hg1, hg2, hg3, hg4, hg5, hg6, hg7, hg8]
  simp only [Option.map_some', Option.some_bind]
  refine ⟨?_, ?_⟩ <;>
    cases c1 <;> cases c2 <;> cases c3 <;> cases c4 <;>
      cases c5 <;> cases c6 <;> cases c7 <;> cases c8 <;> decide

/-- Witness for the amended claim C5 at a concrete input: a 2x2 universe with
one Alive cell, probed at (0, 0). -/
theorem claim_C5_neighbor_count_witness :
    Universe.live_neighbor_count
        { width := 2, height := 2,
          cells := [Cell.Alive, Cell.Dead, Cell.Dead, Cell.Dead] } 0 0 =
      some (specNeighborCount
        { width := 2, height := 2,
          cells := [Cell.Alive, Cell.Dead, Cell.Dead, Cell.Dead] } 0 0) ∧
    specNeighborCount
        { width := 2, height := 2,
          cells := [Cell.Alive, Cell.Dead, Cell.Dead, Cell.Dead] } 0 0 ≤ 8 :=
  claim_C5_neighbor_count
    { width := 2, height := 2, cells := [Cell.Alive, Cell.Dead, Cell.Dead, Cell.Dead] }
    0 0 (by decide) (by decide) (by decide) (by decide) (by decide)

/-- Claim C6 (confirmed): on a consistent universe, toggling an in-range cell
succeeds, keeps the dimensions and the buffer length, flips exactly the cell at
flat index `row * width + col`, and leaves every other index unchanged. -/
theorem claim_C6_toggle_locality (u : Universe) (row col : Nat)
    (hlen : u.cells.length = u.width * u.height)
    (hr : row < u.height) (hc : col < u.width) :
    ∃ u' c, u.toggle_cell row col = some u' ∧ u'.width = u.width ∧
      u'.height = u.height ∧ u'.cells.length = u.cells.length ∧
      u.cells.get? (row * u.width + col) = some c ∧
      u'.cells.get? (row * u.width + col) = some c.toggle ∧
      ∀ j, j ≠ row * u.width + col → u'.cells.get? j = u.cells.get? j := by
  have hidx : row * u.width + col < u.cells.length := by
    rw [hlen]; exact idx_lt_area hr hc
  obtain ⟨c, hcget⟩ := get?_some_of_lt _ _ hidx
  refine ⟨{ u with cells := u.cells.set (row * u.width + col) c.toggle }, c, ?_, rfl, rfl,
    List.length_set _ _ _, hcget, ?_, ?_⟩
  · simp only [Universe.toggle_cell, Universe.get_index, hcget]
  · rw [List.get?_eq_getElem?]
    exact List.getElem?_set_self hidx
  · intro j hj
    rw [List.get?_eq_getElem?, List.get?_eq_getElem?]
    exact List.getElem?_set_ne (Ne.symm hj)

/-- Witness for claim C6 at a concrete input: toggling the only cell of a 1x1
universe. -/
theorem claim_C6_toggle_locality_witness :
    ∃ u' c, Universe.toggle_cell { width := 1, height := 1, cells := [Cell.Dead] } 0 0 =
        some u' ∧ u'.width = 1 ∧ u'.height = 1 ∧ u'.cells.length = 1 ∧
      ({ width := 1, height := 1, cells := [Cell.Dead] } : Universe).cells.get? (0 * 1 + 0) =
        some c ∧
      u'.cells.get? (0 * 1 + 0) = some c.toggle ∧
      ∀ j, j ≠ 0 * 1 + 0 →
        u'.cells.get? j =
          ({ width := 1, height := 1, cells := [Cell.Dead] } : Universe).cells.get? j :=
  claim_C6_toggle_locality { width := 1, height := 1, cells := [Cell.Dead] } 0 0
    rfl (by decide) (by decide)

/-- Counterexample to claim C7: on a consistent 2x2 all-Dead universe, the
out-of-range call `toggle_cell 0 2` (column 2 at width 2) does not fail: it
silently succeeds and toggles the cell at flat index 2, which is the distinct
coordinate (1, 0). -/
theorem claim_C7_counterexample :
    ({ width := 2, height := 2,
       cells := [Cell.Dead, Cell.Dead, Cell.Dead, Cell.Dead] } : Universe).width ≤ 2 ∧
    Universe.toggle_cell
        { width := 2, height := 2, cells := [Cell.Dead, Cell.Dead, Cell.Dead, Cell.Dead] } 0 2 =
      some { width := 2, height := 2,
             cells := [Cell.Dead, Cell.Dead, Cell.Alive, Cell.Dead] } :=
  ⟨by decide, by decide⟩

/-- Claim C7 as amended: an out-of-range `toggle_cell` or `set_cells`
coordinate makes the call fail exactly when the flat index
`row * width + col` falls outside the buffer; when that index is still inside
the buffer the call silently succeeds and writes the cell at that flat index,
i.e. at a coordinate other than `(row, col)`. -/
theorem claim_C7_out_of_range_access (u : Universe) (row col : Nat)
    (hout : u.height ≤ row ∨ u.width ≤ col) :
    (u.toggle_cell row col = none ↔ u.cells.length ≤ row * u.width + col) ∧
    (u.set_cells [(row, col)] = none ↔ u.cells.length ≤ row * u.width + col) ∧
    ∀ c, u.cells.get? (row * u.width + col) = some c →
      u.toggle_cell row col =
        some { u with cells := u.cells.set (row * u.width + col) c.toggle } := by
  refine ⟨?_, ?_, ?_⟩
  · simp only [Universe.toggle_cell, Universe.get_index]
    cases hg : u.cells.get? (row * u.width + col) with
    | none =>
      have hle := List.get?_eq_none.mp hg
      simp [hg, hle]
    | some c =>
      have hlt : ¬u.cells.length ≤ row * u.width + col := by
        intro hle
        rw [List.get?_eq_none.mpr hle] at hg
        exact Option.noConfusion hg
      simp [hg, hlt]
  · simp only [Universe.set_cells, Universe.get_index]
    by_cases hlt : row * u.width + col < u.cells.length
    · rw [if_pos hlt]
      constructor
      · intro hcontra
        exact absurd hcontra (by simp [Universe.set_cells])
      · intro hle
        exact absurd hle (by omega)
    · rw [if_neg hlt]
      constructor
      · intro _
        omega
      · intro _
        rfl
  · intro c hg
    simp only [Universe.toggle_cell, Universe.get_index, hg]

/-- Witness for the amended claim C7 at a concrete input: column 3 on a 2x2
universe (flat index 3, inside the 4-cell buffer). -/
theorem claim_C7_out_of_range_access_witness :
    (Universe.toggle_cell
        { width := 2, height := 2,
          cells := [Cell.Dead, Cell.Dead, Cell.Dead, Cell.Dead] } 0 3 = none ↔
      ({ width := 2, height := 2,
         cells := [Cell.Dead, Cell.Dead, Cell.Dead, Cell.Dead] } : Universe).cells.length ≤
        0 * 2 + 3) ∧
    (Universe.set_cells
        { width := 2, height := 2,
          cells := [Cell.Dead, Cell.Dead, Cell.Dead, Cell.Dead] } [(0, 3)] = none ↔
      ({ width := 2, height := 2,
         cells := [Cell.Dead, Cell.Dead, Cell.Dead, Cell.Dead] } : Universe).cells.length ≤
        0 * 2 + 3) ∧
    ∀ c, ({ width := 2, height := 2,
            cells := [Cell.Dead, Cell.Dead, Cell.Dead, Cell.Dead] } : Universe).cells.get?
          (0 * 2 + 3) = some c →
      Universe.toggle_cell
          { width := 2, height := 2,
            cells := [Cell.Dead, Cell.Dead, Cell.Dead, Cell.Dead] } 0 3 =
        some { width := 2, height := 2,
               cells := [Cell.Dead, Cell.Dead, Cell.Dead, Cell.Dead].set (0 * 2 + 3) c.toggle } :=
  claim_C7_out_of_range_access
    { width := 2, height := 2, cells := [Cell.Dead, Cell.Dead, Cell.Dead, Cell.Dead] }
    0 3 (Or.inr (by decide))

/-- Claim C8 (confirmed): `tick` is deterministic — it reads nothing but the
width, the height and the cell buffer, so two universes agreeing on all three
tick to equal cell buffers for every step count. -/
theorem claim_C8_tick_deterministic (u1 u2 : Universe) (n : Nat)
    (hw : u1.width = u2.width) (hh : u1.height = u2.height)
    (hc : u1.cells = u2.cells) :
    (u1.tick n).map Universe.cells = (u2.tick n).map Universe.cells := by
  obtain ⟨w1, h1, c1⟩ := u1
  obtain ⟨w2, h2, c2⟩ := u2
  cases hw
  cases hh
  cases hc
  rfl

/-- Witness for claim C8 at a concrete input: two (syntactically identical)
1x1 universes ticked once. -/
theorem claim_C8_tick_deterministic_witness :
    (Universe.tick { width := 1, height := 1, cells := [Cell.Dead] } 1).map Universe.cells =
      (Universe.tick { width := 1, height := 1, cells := [Cell.Dead] } 1).map Universe.cells :=
  claim_C8_tick_deterministic
    { width := 1, height := 1, cells := [Cell.Dead] }
    { width := 1, height := 1, cells := [Cell.Dead] } 1 rfl rfl rfl

/-- Claim C9 (confirmed): when the requested clearing range exceeds the buffer
(`new_width * height > cells.length`, resp. `width * new_height >
cells.length`), `set_width` / `set_height` panic out of the clearing loop, and
the state at the panic already carries the updated dimension while the buffer
was never reallocated — a changed, inconsistent state. -/
theorem claim_C9_resize_failure_not_atomic (u : Universe) (w h : Nat)
    (hw : u.cells.length < w * u.height) (hh : u.cells.length < u.width * h) :
    (∃ e, u.set_width w = Except.error e ∧ e.width = w ∧ e.height = u.height ∧
      e.cells.length = u.cells.length ∧ e.cells.length ≠ e.width * e.height) ∧
    (∃ e, u.set_height h = Except.error e ∧ e.width = u.width ∧ e.height = h ∧
      e.cells.length = u.cells.length ∧ e.cells.length ≠ e.width * e.height) := by
  obtain ⟨l1, hl1, hlen1⟩ :=
    clearFrom_error (w * u.height) u.cells 0 (Nat.zero_le _) (by omega)
  obtain ⟨l2, hl2, hlen2⟩ :=
    clearFrom_error (u.width * h) u.cells 0 (Nat.zero_le _) (by omega)
  constructor
  · refine ⟨{ u with width := w, cells := l1 }, ?_, rfl, rfl, hlen1, ?_⟩
    · simp only [Universe.set_width, hl1]
    · simp only []
      omega
  · refine ⟨{ u with height := h, cells := l2 }, ?_, rfl, rfl, hlen2, ?_⟩
    · simp only [Universe.set_height, hl2]
    · simp only []
      omega

/-- Witness for claim C9 at a concrete input: growing a 1x1 universe to
width 2 (resp. height 2) panics and leaves `width = 2` (resp. `height = 2`)
with the old 1-cell buffer. -/
theorem claim_C9_resize_failure_not_atomic_witness :
    (∃ e, Universe.set_width { width := 1, height := 1, cells := [Cell.Dead] } 2 =
        Except.error e ∧ e.width = 2 ∧ e.height = 1 ∧ e.cells.length = 1 ∧
      e.cells.length ≠ e.width * e.height) ∧
    (∃ e, Universe.set_height { width := 1, height := 1, cells := [Cell.Dead] } 2 =
        Except.error e ∧ e.width = 1 ∧ e.height = 2 ∧ e.cells.length = 1 ∧
      e.cells.length ≠ e.width * e.height) :=
  claim_C9_resize_failure_not_atomic
    { width := 1, height := 1, cells := [Cell.Dead] } 2 2 (by decide) (by decide)

/-- Counterexample to claim C10: `tick 0` does not terminate normally on
every universe.  The state `width = 3, height = 2` with a 2-cell buffer (the
very state `set_width`'s failure path leaves behind) makes `tick 0` panic on
its unconditional read `self.cells[idx]`, which happens before the inner
step loop. -/
theorem claim_C10_counterexample :
    Universe.tick { width := 3, height := 2, cells := [Cell.Dead, Cell.Dead] } 0 = none := by
  decide

/-- Claim C10 as amended: on every universe whose buffer covers the grid
(`width * height <= cells.length`), `tick 0` terminates normally and is the
identity: width, height and buffer are returned unchanged. -/
theorem claim_C10_tick_zero_identity (u : Universe)
    (hcov : u.width * u.height ≤ u.cells.length) :
    u.tick 0 = some u := by
  obtain ⟨w, h, cs⟩ := u
  simp only [Universe.tick, Universe.get_index] at hcov ⊢
  refine Eq.trans (congrArg _ (foldl_some_fixed _ cs (List.range h) ?_)) rfl
  intro row hrow
  rw [List.mem_range] at hrow
  refine foldl_some_fixed _ cs (List.range w) ?_
  intro col hcol
  rw [List.mem_range] at hcol
  have hidx : row * w + col < cs.length := by
    have := idx_lt_area hrow hcol
    omega
  obtain ⟨c, hcget⟩ := get?_some_of_lt cs (row * w + col) hidx
  simp only [Option.some_bind, hcget, List.range_zero, List.foldl_nil]

/-- Witness for the amended claim C10 at a concrete input: `tick 0` on a
consistent 1x1 universe returns it unchanged. -/
theorem claim_C10_tick_zero_identity_witness :
    Universe.tick { width := 1, height := 1, cells := [Cell.Dead] } 0 =
      some { width := 1, height := 1, cells := [Cell.Dead] } :=
  claim_C10_tick_zero_identity
    { width := 1, height := 1, cells := [Cell.Dead] } (by decide)

end WasmGameOfLife
